import Mathlib

/-!
Verification of the PNGTuber audio-acquisition core
(`src/js/app.js`, OBS-WebSocket variant, and `src/unnamed/part_000`,
microphone-only variant).

The embedding models:
* the talk state machine (`processVolume`, the inline loop body of
  `startAudioLoop` in the mic-only variant, smoothing, threshold,
  edge-triggered mouth events);
* the OBS-WebSocket remote path (`initOBSWebSocket`'s handlers,
  `obsAuthenticate`, `obsSend`, `handleOBSMessage`,
  `handleOBSVolumeResponse`, `startOBSAudioLoop`) as a step function over an
  explicit session state, driven by a list of environment events
  (socket open/error/close, incoming messages, the 3-second fallback timer,
  and the polling timer).

JavaScript numbers are modelled as rationals; `Math.round` as
`⌊x + 1/2⌋`; `Math.min`/`Math.max` as `min`/`max` on `ℚ`.
-/

/-- Talk-state machine state, from the `PNGTuber` constructor of both
variants: `this.threshold` (default `20`), `this.isTalking = false`,
`this.smoothedVolume = 0`. -/
structure TalkState where
  smoothedVolume : ℚ
  isTalking : Bool
  threshold : ℚ
deriving Repr

/-- The state built by the `PNGTuber` constructor for a given resolved
threshold: `smoothedVolume = 0`, `isTalking = false`. -/
def initialState (t : ℚ) : TalkState :=
  { smoothedVolume := 0, isTalking := false, threshold := t }

/-- Threshold resolution from the constructor plus `parseURLParams`:
`this.threshold = 20` in the constructor (`src/js/app.js` line 33,
`src/unnamed/part_000` line 27), overwritten by the parsed `threshold`
query parameter only when that parameter is present. -/
def resolveThreshold (param : Option ℤ) : ℤ :=
  match param with
  | some t => t
  | none => 20

/-- Function `processVolume` from `src/js/app.js` lines 246-262: exponential
smoothing `smoothedVolume*0.7 + volume*0.3`, strict comparison
`smoothedVolume > threshold`, and an `updateMouthState` call (modelled as
the returned `Option Bool` event carrying the new talk state) exactly when
`shouldTalk !== isTalking`. -/
def processVolume (st : TalkState) (volume : ℚ) : TalkState × Option Bool :=
  let s := st.smoothedVolume * (7/10) + volume * (3/10)
  let shouldTalk : Bool := decide (st.threshold < s)
  if shouldTalk ≠ st.isTalking then
    ({ st with smoothedVolume := s, isTalking := shouldTalk }, some shouldTalk)
  else
    ({ st with smoothedVolume := s }, none)

/-- JavaScript `Math.round`: round half toward positive infinity. -/
def jsRound (x : ℚ) : ℤ := ⌊x + 1/2⌋

/-- The volume computed by one iteration of the mic loop
(`startAudioLoop` in both variants): arithmetic mean of the frequency-bin
magnitudes, rescaled by `Math.round((average / 255) * 100)`. -/
def micVolume (bins : List ℚ) : ℚ :=
  ((jsRound (bins.sum / (bins.length : ℚ) / 255 * 100) : ℤ) : ℚ)

/-- One iteration of `processAudio` inside `startAudioLoop` of the
mic-only variant (`src/unnamed/part_000` lines 213-249), which inlines the
smoothing/threshold/mouth logic instead of calling `processVolume`. -/
def startAudioLoopBody (st : TalkState) (bins : List ℚ) : TalkState × Option Bool :=
  let volume := micVolume bins
  let s := st.smoothedVolume * (7/10) + volume * (3/10)
  let shouldTalk : Bool := decide (st.threshold < s)
  if shouldTalk ≠ st.isTalking then
    ({ st with smoothedVolume := s, isTalking := shouldTalk }, some shouldTalk)
  else
    ({ st with smoothedVolume := s }, none)

/-- Feed a list of samples through `processVolume`, collecting the emitted
talk-state transition events in order. -/
def runVolumes (st : TalkState) : List ℚ → TalkState × List Bool
  | [] => (st, [])
  | v :: rest =>
    let p := processVolume st v
    let r := runVolumes p.1 rest
    (r.1, p.2.toList ++ r.2)

/-- Decidable check that processing each sample of the list in turn keeps
the talk state on the same side of the threshold (no transition at any
step). -/
def staysOnSide (st : TalkState) : List ℚ → Bool
  | [] => true
  | v :: rest =>
    ((processVolume st v).1.isTalking == st.isTalking)
      && staysOnSide (processVolume st v).1 rest

/-! ## The remote (OBS WebSocket) path -/

/-- Browser `WebSocket.readyState` values. -/
inductive ReadyState
  | CONNECTING
  | OPEN
  | CLOSING
  | CLOSED
deriving DecidableEq, Repr

/-- Payload of an outgoing `op=1` identify message. `authentication` is
`none` when the JSON object carries no `authentication` field. -/
structure IdentifyData where
  rpcVersion : Nat
  authentication : Option String
deriving DecidableEq, Repr

/-- Messages the client transmits over the socket. The `requestId` of a
`GetInputVolume` request is the `Date.now()` timestamp, modelled by the
session clock. -/
inductive OutMsg
  | identify (d : IdentifyData)
  | request (requestType : String) (requestId : Nat) (inputName : String)
deriving DecidableEq, Repr

/-- Field `message.d.responseData` of an `op=7` message; `inputVolumeMul` is
`none` when the field is `undefined`. -/
structure ResponseData where
  inputVolumeMul : Option ℚ

/-- Field `message.d` of an `op=7` message. -/
structure ResponseBody where
  requestType : String
  responseData : Option ResponseData

/-- Incoming messages, by opcode: `hello` is `op=0`, `identified` is
`op=2`, `response` is `op=7` (whose `d` may be absent), and `other` covers
every other opcode (ignored by `handleOBSMessage`). -/
inductive InMsg
  | hello
  | identified
  | response (d : Option ResponseBody)
  | other (op : Nat)

/-- OBS-session state of `src/js/app.js`, instrumented: `sent` records
the messages actually transmitted by `obsSend`, `initAudioCalls` counts
invocations of the local-microphone fallback `initAudio()`, and `now` is
the session clock (source of `Date.now()` request ids). -/
structure OBSState where
  wsExists : Bool
  readyState : ReadyState
  obsConnected : Bool
  obsPassword : String
  obsAudioSource : String
  pollingActive : Bool
  initAudioCalls : Nat
  sent : List OutMsg
  now : Nat

/-- Function `obsSend` from `src/js/app.js` lines 174-178: transmit only when the
socket object exists and its `readyState` is `OPEN`; otherwise do nothing
at all. -/
def obsSend (st : OBSState) (m : OutMsg) : OBSState :=
  if st.wsExists = true ∧ st.readyState = ReadyState.OPEN then
    { st with sent := st.sent ++ [m] }
  else st

/-- Function `obsAuthenticate` from `src/js/app.js` lines 159-169: send an identify
(`op=1`) carrying `rpcVersion: 1` and `authentication: this.obsPassword`. -/
def obsAuthenticate (st : OBSState) : OBSState :=
  obsSend st (OutMsg.identify ⟨1, some st.obsPassword⟩)

/-- The body of `pollAudio` inside `startOBSAudioLoop`
(`src/js/app.js` lines 220-241): stop when `obsConnected` is false,
otherwise send a `GetInputVolume` request and reschedule. -/
def pollAudioBody (st : OBSState) : OBSState :=
  if st.obsConnected = true then
    obsSend st (OutMsg.request "GetInputVolume" st.now st.obsAudioSource)
  else
    { st with pollingActive := false }

/-- Function `startOBSAudioLoop` from `src/js/app.js` lines 220-241: the loop is
armed and its first iteration runs immediately. -/
def startOBSAudioLoop (st : OBSState) : OBSState :=
  pollAudioBody { st with pollingActive := true }

/-- Function `handleOBSVolumeResponse` from `src/js/app.js` lines 208-215: when the
response data exists and defines `inputVolumeMul`, emit
`Math.min(100, Math.max(0, inputVolumeMul * 100))`; otherwise emit
nothing. -/
def handleOBSVolumeResponse (data : Option ResponseData) : Option ℚ :=
  match data with
  | some d =>
    match d.inputVolumeMul with
    | some mul => some (min 100 (max 0 (mul * 100)))
    | none => none
  | none => none

/-- Function `handleOBSMessage` from `src/js/app.js` lines 183-203. Returns the
updated state and the volume sample (if any) this message feeds into
`processVolume`. The reply to `hello` carries only `rpcVersion: 1`. -/
def handleOBSMessage (st : OBSState) (m : InMsg) : OBSState × Option ℚ :=
  match m with
  | InMsg.hello => (obsSend st (OutMsg.identify ⟨1, none⟩), none)
  | InMsg.identified => (startOBSAudioLoop st, none)
  | InMsg.response d =>
    match d with
    | some body =>
      if body.requestType = "GetInputVolume" then
        (st, handleOBSVolumeResponse body.responseData)
      else (st, none)
    | none => (st, none)
  | InMsg.other _ => (st, none)

/-- The `onopen` handler installed by `initOBSWebSocket`
(`src/js/app.js` lines 111-123): set `obsConnected`, then authenticate if
a password is configured (truthy string), else start the polling loop. -/
def onOpenHandler (st : OBSState) : OBSState :=
  let st := { st with obsConnected := true }
  if st.obsPassword ≠ "" then obsAuthenticate st else startOBSAudioLoop st

/-- Effect of the WebSocket `close()` method on `readyState` (WHATWG
HTML): a no-op on a socket that is already `CLOSING` or `CLOSED`;
otherwise (`CONNECTING` or `OPEN`) the socket moves to `CLOSING`. -/
def closeMethod (rs : ReadyState) : ReadyState :=
  match rs with
  | ReadyState.CONNECTING => ReadyState.CLOSING
  | ReadyState.OPEN => ReadyState.CLOSING
  | ReadyState.CLOSING => ReadyState.CLOSING
  | ReadyState.CLOSED => ReadyState.CLOSED

/-- The 3000 ms `setTimeout` callback of `initOBSWebSocket`
(`src/js/app.js` lines 140-148): if `obsConnected` is still false, call
`close()` on the socket (when it exists) and fall back to `initAudio()`. -/
def timeoutHandler (st : OBSState) : OBSState :=
  if st.obsConnected = true then st
  else
    let st := if st.wsExists = true then { st with readyState := closeMethod st.readyState } else st
    { st with initAudioCalls := st.initAudioCalls + 1 }

/-- Environment events delivered to the OBS session: the four socket
callbacks, the 3000 ms fallback timer, and a firing of the polling
timer. -/
inductive OBSEvent
  | wsOpen
  | wsMessage (m : InMsg)
  | wsError
  | wsClose
  | timeout3000
  | pollTick
deriving Inhabited

/-- One event step of the OBS session. The platform facts baked in: the
clock advances; `wsOpen` is delivered only on a `CONNECTING` socket (a
browser WebSocket fires `open` at most once and never after `close()` or
an error); `message` events are delivered only while `readyState` is
`OPEN`; the socket's `readyState` is `CLOSED` by the time `onerror` /
`onclose` run. The handler bodies are the source's. -/
def obsStep (st : OBSState) (e : OBSEvent) : OBSState × Option ℚ :=
  let st := { st with now := st.now + 1 }
  match e with
  | OBSEvent.wsOpen =>
    if st.readyState = ReadyState.CONNECTING then
      (onOpenHandler { st with readyState := ReadyState.OPEN }, none)
    else (st, none)
  | OBSEvent.wsMessage m =>
    if st.readyState = ReadyState.OPEN then handleOBSMessage st m
    else (st, none)
  | OBSEvent.wsError =>
    ({ st with readyState := ReadyState.CLOSED,
               initAudioCalls := st.initAudioCalls + 1 }, none)
  | OBSEvent.wsClose =>
    ({ st with readyState := ReadyState.CLOSED, obsConnected := false }, none)
  | OBSEvent.timeout3000 => (timeoutHandler st, none)
  | OBSEvent.pollTick => (pollAudioBody st, none)

/-- Run the OBS session over a list of environment events, collecting the
remote volume samples it emits. -/
def runOBS (st : OBSState) : List OBSEvent → OBSState × List ℚ
  | [] => (st, [])
  | e :: rest =>
    let p := obsStep st e
    let r := runOBS p.1 rest
    (r.1, p.2.toList ++ r.2)

/-- The state right after `initOBSWebSocket` constructs the WebSocket and
installs its handlers (`src/js/app.js` lines 104-154): socket exists and
is `CONNECTING`, not yet connected, nothing sent, no fallback yet. -/
def initOBSWebSocket (password source : String) : OBSState :=
  { wsExists := true, readyState := ReadyState.CONNECTING,
    obsConnected := false, obsPassword := password,
    obsAudioSource := source, pollingActive := false,
    initAudioCalls := 0, sent := [], now := 0 }

/-- Session states reachable from some freshly initialised OBS session by
some sequence of environment events. -/
def Reachable (st : OBSState) : Prop :=
  ∃ password source es, (runOBS (initOBSWebSocket password source) es).1 = st

/-- Session invariant: the socket object exists, and once the local
fallback `initAudio()` has been invoked at least once, the socket is no
longer `OPEN` (it is `CLOSING` or `CLOSED`). -/
def SessionInv (st : OBSState) : Prop :=
  st.wsExists = true ∧
    (0 < st.initAudioCalls →
      st.readyState = ReadyState.CLOSING ∨ st.readyState = ReadyState.CLOSED)

/-! ## Helper lemmas: talk state machine -/

theorem processVolume_smoothedVolume (st : TalkState) (v : ℚ) :
    (processVolume st v).1.smoothedVolume
      = st.smoothedVolume * (7/10) + v * (3/10) := by
  simp only [processVolume]
  split <;> rfl

theorem processVolume_isTalking (st : TalkState) (v : ℚ) :
    (processVolume st v).1.isTalking
      = decide (st.threshold < st.smoothedVolume * (7/10) + v * (3/10)) := by
  simp only [processVolume]
  split
  · rfl
  · next h =>
    simp only [ne_eq, not_not] at h
    exact h.symm

theorem processVolume_event_isSome (st : TalkState) (v : ℚ) :
    (processVolume st v).2.isSome = true ↔
      decide (st.threshold < st.smoothedVolume * (7/10) + v * (3/10))
        ≠ st.isTalking := by
  simp only [processVolume]
  split
  · next h => simpa using h
  · next h => simpa using h

theorem processVolume_event_none (st : TalkState) (v : ℚ)
    (h : (processVolume st v).1.isTalking = st.isTalking) :
    (processVolume st v).2 = none := by
  rw [processVolume_isTalking] at h
  simp only [processVolume]
  rw [if_neg]
  simpa using h

theorem processVolume_event_eq (st : TalkState) (v : ℚ) (b : Bool)
    (h : (processVolume st v).2 = some b) :
    (processVolume st v).1.isTalking = b := by
  by_cases hc : decide (st.threshold < st.smoothedVolume * (7/10) + v * (3/10))
      = st.isTalking
  · simp [processVolume, hc] at h
  · simp only [processVolume] at h ⊢
    rw [if_pos (by simpa using hc)] at h ⊢
    simpa using h

theorem runVolumes_cons (st : TalkState) (v : ℚ) (rest : List ℚ) :
    runVolumes st (v :: rest)
      = ((runVolumes (processVolume st v).1 rest).1,
         (processVolume st v).2.toList ++ (runVolumes (processVolume st v).1 rest).2) := rfl

theorem processVolume_between (st : TalkState) (v : ℚ) :
    min st.smoothedVolume v ≤ (processVolume st v).1.smoothedVolume
      ∧ (processVolume st v).1.smoothedVolume ≤ max st.smoothedVolume v := by
  rw [processVolume_smoothedVolume]
  rcases le_total st.smoothedVolume v with h | h
  · rw [min_eq_left h, max_eq_right h]
    constructor <;> linarith
  · rw [min_eq_right h, max_eq_left h]
    constructor <;> linarith

theorem runVolumes_bounds (vs : List ℚ) (st : TalkState)
    (h0 : 0 ≤ st.smoothedVolume) (h1 : st.smoothedVolume ≤ 100)
    (hv : ∀ v ∈ vs, 0 ≤ v ∧ v ≤ 100) :
    0 ≤ (runVolumes st vs).1.smoothedVolume
      ∧ (runVolumes st vs).1.smoothedVolume ≤ 100 := by
  induction vs generalizing st with
  | nil => exact ⟨h0, h1⟩
  | cons v rest ih =>
    have hv0 := hv v (List.mem_cons_self v rest)
    have hs := processVolume_smoothedVolume st v
    rw [runVolumes_cons]
    refine ih (processVolume st v).1 ?_ ?_ fun w hw => hv w (List.mem_cons_of_mem v hw)
    · rw [hs]; nlinarith [hv0.1, hv0.2]
    · rw [hs]; nlinarith [hv0.1, hv0.2]

/-- C5. For every incoming sample and every prior smoothing state, one
update step of the talk state machine sets the new smoothed volume to
exactly `smoothedVolume * 0.7 + sample * 0.3`, in both the shared
`processVolume` path (used by the remote mode) and the inline mic-loop
path of the mic-only variant. -/
theorem C5_smoothing_formula :
    (∀ (st : TalkState) (v : ℚ),
      (processVolume st v).1.smoothedVolume
        = st.smoothedVolume * (7/10) + v * (3/10))
    ∧ (∀ (st : TalkState) (bins : List ℚ),
      (startAudioLoopBody st bins).1.smoothedVolume
        = st.smoothedVolume * (7/10) + micVolume bins * (3/10)) := by
  constructor
  · exact processVolume_smoothedVolume
  · intro st bins
    simp only [startAudioLoopBody]
    split <;> rfl

theorem staysOnSide_no_events (st : TalkState) (vs : List ℚ)
    (h : staysOnSide st vs = true) : (runVolumes st vs).2 = [] := by
  induction vs generalizing st with
  | nil => rfl
  | cons v rest ih =>
    unfold staysOnSide at h
    rw [Bool.and_eq_true, beq_iff_eq] at h
    rw [runVolumes_cons, processVolume_event_none st v h.1, ih _ h.2]
    rfl

/-- C6. A talking/not-talking transition event is emitted on a processed
sample if and only if the strict comparison `smoothedVolume > threshold`
(on the freshly smoothed value) differs from the current talk state; a
smoothed volume exactly equal to the threshold never yields the talking
state; and a run of consecutive samples that keep the talk state on the
same side of the threshold produces no events at all (edge-triggered). -/
theorem C6_edge_triggered :
    (∀ (st : TalkState) (v : ℚ),
      (processVolume st v).2.isSome = true ↔
        decide (st.threshold < st.smoothedVolume * (7/10) + v * (3/10))
          ≠ st.isTalking)
    ∧ (∀ (st : TalkState) (v : ℚ),
      st.smoothedVolume * (7/10) + v * (3/10) = st.threshold →
        (processVolume st v).1.isTalking = false
          ∧ (processVolume st v).2 ≠ some true)
    ∧ (∀ (st : TalkState) (vs : List ℚ),
      staysOnSide st vs = true → (runVolumes st vs).2 = []) := by
  refine ⟨processVolume_event_isSome, ?_, staysOnSide_no_events⟩
  intro st v heq
  have htalk : (processVolume st v).1.isTalking = false := by
    rw [processVolume_isTalking, heq]
    simp
  refine ⟨htalk, ?_⟩
  intro hev
  have hb := processVolume_event_eq st v true hev
  rw [htalk] at hb
  exact Bool.noConfusion hb

/-- C6 witness: from a fresh state with threshold 20, the first sample 100
raises the smoothed volume to 30 and emits the talking transition; the two
following samples 100 keep the state talking and emit nothing. -/
theorem C6_witness :
    staysOnSide ((processVolume (initialState 20) 100).1) [100, 100] = true
      ∧ (runVolumes ((processVolume (initialState 20) 100).1) [100, 100]).2 = [] :=
  ⟨by norm_num [staysOnSide, processVolume, initialState],
   C6_edge_triggered.2.2 _ [100, 100]
     (by norm_num [staysOnSide, processVolume, initialState])⟩

/-- C7. The smoothing update never overshoots the bounds of its two
inputs, and from the constructor's initial `smoothedVolume = 0`, any
sequence of samples each lying in `[0, 100]` keeps the smoothed volume
within `[0, 100]` after every update (every prefix of a sample sequence is
itself such a sequence). -/
theorem C7_smoothed_bounds :
    (∀ (st : TalkState) (v : ℚ),
      min st.smoothedVolume v ≤ (processVolume st v).1.smoothedVolume
        ∧ (processVolume st v).1.smoothedVolume ≤ max st.smoothedVolume v)
    ∧ (∀ (t : ℚ) (vs : List ℚ), (∀ v ∈ vs, 0 ≤ v ∧ v ≤ 100) →
      0 ≤ (runVolumes (initialState t) vs).1.smoothedVolume
        ∧ (runVolumes (initialState t) vs).1.smoothedVolume ≤ 100) := by
  refine ⟨processVolume_between, ?_⟩
  intro t vs hv
  exact runVolumes_bounds vs (initialState t) le_rfl (by norm_num [initialState]) hv

/-- C7 witness: with threshold 20 and samples 50 then 100, the smoothed
volume stays within `[0, 100]`. -/
theorem C7_witness :
    0 ≤ (runVolumes (initialState 20) [50, 100]).1.smoothedVolume
      ∧ (runVolumes (initialState 20) [50, 100]).1.smoothedVolume ≤ 100 :=
  C7_smoothed_bounds.2 20 [50, 100] (by decide)

/-- C8. When no threshold value is supplied in the configuration input,
the threshold actually used by the talk state machine is 20 (the
constructor sets `this.threshold = 20` in both variants and
`parseURLParams` leaves it untouched when the parameter is absent), not
the 30 that the repository README documents as the default for the
`threshold` parameter: the code contradicts its own documentation here. -/
theorem C8_default_threshold :
    resolveThreshold none = 20 ∧ ¬ resolveThreshold none = 30 := by decide

/-- C10. The smoothing update is monotone in both arguments: with the
previous smoothed volume fixed, a larger sample never yields a smaller
updated smoothed volume, and with the sample fixed, a larger previous
smoothed volume never yields a smaller updated one. -/
theorem C10_smoothing_monotone :
    (∀ (st : TalkState) (v w : ℚ), v ≤ w →
      (processVolume st v).1.smoothedVolume ≤ (processVolume st w).1.smoothedVolume)
    ∧ (∀ (s s' : TalkState) (v : ℚ), s.smoothedVolume ≤ s'.smoothedVolume →
      (processVolume s v).1.smoothedVolume ≤ (processVolume s' v).1.smoothedVolume) := by
  constructor
  · intro st v w h
    rw [processVolume_smoothedVolume, processVolume_smoothedVolume]
    linarith
  · intro s s' v h
    rw [processVolume_smoothedVolume, processVolume_smoothedVolume]
    linarith

/-- C10 witness: monotonicity evaluated at samples 10 ≤ 50 from the fresh
state with threshold 20. -/
theorem C10_witness :
    (processVolume (initialState 20) 10).1.smoothedVolume
      ≤ (processVolume (initialState 20) 50).1.smoothedVolume :=
  C10_smoothing_monotone.1 (initialState 20) 10 50 (by decide)

/-! ## Helper lemmas: remote path -/

theorem obsSend_not_open (st : OBSState) (m : OutMsg)
    (h : st.readyState ≠ ReadyState.OPEN) : obsSend st m = st := by
  unfold obsSend
  rw [if_neg]
  rintro ⟨-, h2⟩
  exact h h2

theorem obsSend_frame (st : OBSState) (m : OutMsg) :
    (obsSend st m).wsExists = st.wsExists
    ∧ (obsSend st m).readyState = st.readyState
    ∧ (obsSend st m).obsConnected = st.obsConnected
    ∧ (obsSend st m).initAudioCalls = st.initAudioCalls := by
  unfold obsSend
  split <;> exact ⟨rfl, rfl, rfl, rfl⟩

theorem pollAudioBody_frame (st : OBSState) :
    (pollAudioBody st).wsExists = st.wsExists
    ∧ (pollAudioBody st).readyState = st.readyState
    ∧ (pollAudioBody st).obsConnected = st.obsConnected
    ∧ (pollAudioBody st).initAudioCalls = st.initAudioCalls := by
  unfold pollAudioBody
  split
  · exact obsSend_frame _ _
  · exact ⟨rfl, rfl, rfl, rfl⟩

theorem pollAudioBody_sent_of_not_open (st : OBSState)
    (h : st.readyState ≠ ReadyState.OPEN) : (pollAudioBody st).sent = st.sent := by
  unfold pollAudioBody
  split
  · rw [obsSend_not_open st _ h]
  · rfl

theorem startOBSAudioLoop_frame (st : OBSState) :
    (startOBSAudioLoop st).wsExists = st.wsExists
    ∧ (startOBSAudioLoop st).readyState = st.readyState
    ∧ (startOBSAudioLoop st).obsConnected = st.obsConnected
    ∧ (startOBSAudioLoop st).initAudioCalls = st.initAudioCalls := by
  unfold startOBSAudioLoop
  exact pollAudioBody_frame _

theorem startOBSAudioLoop_sent_of_not_open (st : OBSState)
    (h : st.readyState ≠ ReadyState.OPEN) :
    (startOBSAudioLoop st).sent = st.sent := by
  unfold startOBSAudioLoop
  exact pollAudioBody_sent_of_not_open _ h

theorem onOpenHandler_frame (st : OBSState) :
    (onOpenHandler st).wsExists = st.wsExists
    ∧ (onOpenHandler st).readyState = st.readyState
    ∧ (onOpenHandler st).initAudioCalls = st.initAudioCalls := by
  simp only [onOpenHandler, obsAuthenticate]
  split
  · exact ⟨(obsSend_frame _ _).1, (obsSend_frame _ _).2.1, (obsSend_frame _ _).2.2.2⟩
  · exact ⟨(startOBSAudioLoop_frame _).1, (startOBSAudioLoop_frame _).2.1,
      (startOBSAudioLoop_frame _).2.2.2⟩

theorem handleOBSMessage_frame (st : OBSState) (m : InMsg) :
    (handleOBSMessage st m).1.wsExists = st.wsExists
    ∧ (handleOBSMessage st m).1.readyState = st.readyState
    ∧ (handleOBSMessage st m).1.initAudioCalls = st.initAudioCalls := by
  unfold handleOBSMessage
  match m with
  | InMsg.hello =>
    exact ⟨(obsSend_frame _ _).1, (obsSend_frame _ _).2.1, (obsSend_frame _ _).2.2.2⟩
  | InMsg.identified =>
    exact ⟨(startOBSAudioLoop_frame _).1, (startOBSAudioLoop_frame _).2.1,
      (startOBSAudioLoop_frame _).2.2.2⟩
  | InMsg.response d =>
    match d with
    | some body =>
      dsimp only
      split <;> exact ⟨rfl, rfl, rfl⟩
    | none => exact ⟨rfl, rfl, rfl⟩
  | InMsg.other op => exact ⟨rfl, rfl, rfl⟩

theorem handleOBSMessage_sent_of_not_open (st : OBSState) (m : InMsg)
    (h : st.readyState ≠ ReadyState.OPEN) :
    (handleOBSMessage st m).1.sent = st.sent := by
  unfold handleOBSMessage
  match m with
  | InMsg.hello => rw [obsSend_not_open st _ h]
  | InMsg.identified => exact startOBSAudioLoop_sent_of_not_open _ h
  | InMsg.response d =>
    match d with
    | some body =>
      dsimp only
      split <;> rfl
    | none => rfl
  | InMsg.other op => rfl

theorem timeoutHandler_of_connected (st : OBSState) (h : st.obsConnected = true) :
    timeoutHandler st = st := by
  unfold timeoutHandler
  rw [if_pos h]

theorem timeoutHandler_of_not_connected (st : OBSState)
    (hc : st.obsConnected = false) (hw : st.wsExists = true) :
    timeoutHandler st
      = { st with readyState := closeMethod st.readyState,
                  initAudioCalls := st.initAudioCalls + 1 } := by
  unfold timeoutHandler
  rw [if_neg (by simp [hc])]
  dsimp only
  rw [if_pos hw]

theorem closeMethod_not_open (rs : ReadyState) :
    closeMethod rs = ReadyState.CLOSING ∨ closeMethod rs = ReadyState.CLOSED := by
  cases rs <;> simp [closeMethod]

theorem runOBS_cons (st : OBSState) (e : OBSEvent) (rest : List OBSEvent) :
    runOBS st (e :: rest)
      = ((runOBS (obsStep st e).1 rest).1,
         (obsStep st e).2.toList ++ (runOBS (obsStep st e).1 rest).2) := rfl

theorem obsStep_inv (st : OBSState) (e : OBSEvent) (h : SessionInv st) :
    SessionInv (obsStep st e).1 := by
  obtain ⟨hws, hrs⟩ := h
  cases e with
  | wsOpen =>
    simp only [obsStep]
    split
    · next hconn =>
      have hc0 : st.initAudioCalls = 0 := by
        by_contra hne
        rcases hrs (Nat.pos_of_ne_zero hne) with h1 | h1 <;>
          simp [h1] at hconn
      refine ⟨?_, ?_⟩
      · rw [(onOpenHandler_frame _).1]
        exact hws
      · rw [(onOpenHandler_frame _).2.2]
        intro hpos
        simp [hc0] at hpos
    · exact ⟨hws, hrs⟩
  | wsMessage m =>
    simp only [obsStep]
    split
    · refine ⟨?_, ?_⟩
      · rw [(handleOBSMessage_frame _ _).1]
        exact hws
      · rw [(handleOBSMessage_frame _ _).2.2, (handleOBSMessage_frame _ _).2.1]
        exact hrs
    · exact ⟨hws, hrs⟩
  | wsError =>
    exact ⟨hws, fun _ => Or.inr rfl⟩
  | wsClose =>
    exact ⟨hws, fun _ => Or.inr rfl⟩
  | timeout3000 =>
    simp only [obsStep]
    by_cases hc : st.obsConnected = true
    · rw [timeoutHandler_of_connected { st with now := st.now + 1 } hc]
      exact ⟨hws, hrs⟩
    · rw [timeoutHandler_of_not_connected { st with now := st.now + 1 }
        (by simpa using hc) hws]
      exact ⟨hws, fun _ => closeMethod_not_open _⟩
  | pollTick =>
    simp only [obsStep]
    refine ⟨?_, ?_⟩
    · rw [(pollAudioBody_frame _).1]
      exact hws
    · rw [(pollAudioBody_frame _).2.2.2, (pollAudioBody_frame _).2.1]
      exact hrs

theorem runOBS_inv (st : OBSState) (es : List OBSEvent) (h : SessionInv st) :
    SessionInv (runOBS st es).1 := by
  induction es generalizing st with
  | nil => exact h
  | cons e rest ih =>
    rw [runOBS_cons]
    exact ih _ (obsStep_inv st e h)

theorem reachable_inv (st : OBSState) (h : Reachable st) : SessionInv st := by
  obtain ⟨pw, src, es, rfl⟩ := h
  refine runOBS_inv _ es ⟨rfl, ?_⟩
  intro h0
  simp [initOBSWebSocket] at h0

theorem obsStep_frozen (st : OBSState) (e : OBSEvent)
    (h : SessionInv st) (hc : 0 < st.initAudioCalls) :
    (obsStep st e).1.sent = st.sent ∧ (obsStep st e).2 = none
      ∧ SessionInv (obsStep st e).1 ∧ 0 < (obsStep st e).1.initAudioCalls := by
  have hno : st.readyState ≠ ReadyState.OPEN := by
    rcases h.2 hc with h1 | h1 <;> simp [h1]
  refine ⟨?_, ?_, obsStep_inv st e h, ?_⟩
  · cases e with
    | wsOpen =>
      simp only [obsStep]
      rw [if_neg (by rcases h.2 hc with h1 | h1 <;> simp [h1])]
    | wsMessage m =>
      simp only [obsStep]
      rw [if_neg (by simpa using hno)]
    | wsError => rfl
    | wsClose => rfl
    | timeout3000 =>
      simp only [obsStep]
      by_cases hcon : st.obsConnected = true
      · rw [timeoutHandler_of_connected { st with now := st.now + 1 } hcon]
      · rw [timeoutHandler_of_not_connected { st with now := st.now + 1 }
          (by simpa using hcon) h.1]
    | pollTick =>
      simp only [obsStep]
      exact pollAudioBody_sent_of_not_open _ hno
  · cases e with
    | wsOpen =>
      simp only [obsStep]
      rw [if_neg (by rcases h.2 hc with h1 | h1 <;> simp [h1])]
    | wsMessage m =>
      simp only [obsStep]
      rw [if_neg (by simpa using hno)]
    | wsError => rfl
    | wsClose => rfl
    | timeout3000 => rfl
    | pollTick => rfl
  · cases e with
    | wsOpen =>
      simp only [obsStep]
      rw [if_neg (by rcases h.2 hc with h1 | h1 <;> simp [h1])]
      exact hc
    | wsMessage m =>
      simp only [obsStep]
      rw [if_neg (by simpa using hno)]
      exact hc
    | wsError => exact Nat.lt_of_lt_of_le hc (Nat.le_succ _)
    | wsClose => exact hc
    | timeout3000 =>
      simp only [obsStep]
      by_cases hcon : st.obsConnected = true
      · rw [timeoutHandler_of_connected { st with now := st.now + 1 } hcon]
        exact hc
      · rw [timeoutHandler_of_not_connected { st with now := st.now + 1 }
          (by simpa using hcon) h.1]
        exact Nat.lt_of_lt_of_le hc (Nat.le_succ _)
    | pollTick =>
      simp only [obsStep]
      rw [(pollAudioBody_frame _).2.2.2]
      exact hc

theorem runOBS_frozen (st : OBSState) (es : List OBSEvent)
    (h : SessionInv st) (hc : 0 < st.initAudioCalls) :
    (runOBS st es).1.sent = st.sent ∧ (runOBS st es).2 = [] := by
  induction es generalizing st with
  | nil => exact ⟨rfl, rfl⟩
  | cons e rest ih =>
    obtain ⟨hsent, hout, hinv, hpos⟩ := obsStep_frozen st e h hc
    rw [runOBS_cons]
    obtain ⟨ih1, ih2⟩ := ih _ hinv hpos
    refine ⟨by rw [ih1, hsent], ?_⟩
    rw [hout, ih2]
    rfl

/-! ## Claims about the remote path -/

/-- C1 counterexample: a remote transport error mid-Polling (connection
opened without a password, polling started, then `onerror`, the prompt
`onclose`, and finally the 3-second deadline callback, which sees
`obsConnected == false` and falls back again) invokes the local fallback
`initAudio()` twice, not exactly once as claimed. -/
theorem C1_counterexample :
    ¬ (runOBS (initOBSWebSocket "" "Mic/Aux")
        [OBSEvent.wsOpen, OBSEvent.wsError, OBSEvent.wsClose,
         OBSEvent.timeout3000]).1.initAudioCalls = 1
    ∧ (runOBS (initOBSWebSocket "" "Mic/Aux")
        [OBSEvent.wsOpen, OBSEvent.wsError, OBSEvent.wsClose,
         OBSEvent.timeout3000]).1.initAudioCalls = 2 := by
  constructor <;> decide

/-- C1 (amended). At most one source produces after fallback: in every
reachable session state in which the local fallback `initAudio()` has been
invoked at least once, no further remote message is ever transmitted and
no further remote volume sample is ever emitted, whatever events follow;
and a transport error invokes the fallback exactly once at the error
handler itself. (The original "exactly one fallback in total" is refuted
by `C1_counterexample`: the 3-second deadline callback can invoke local
capture a second time after an early error.) -/
theorem C1_no_remote_after_fallback (st : OBSState) (es : List OBSEvent)
    (hr : Reachable st) (hc : 0 < st.initAudioCalls) :
    (runOBS st es).1.sent = st.sent ∧ (runOBS st es).2 = []
    ∧ (obsStep st OBSEvent.wsError).1.initAudioCalls = st.initAudioCalls + 1 := by
  obtain ⟨h1, h2⟩ := runOBS_frozen st es (reachable_inv st hr) hc
  exact ⟨h1, h2, rfl⟩

/-- C1 witness: after `[wsOpen, wsError]` the fallback has fired once;
running three further events (a poll tick, a stray hello, the deadline)
transmits nothing and emits no remote sample. -/
theorem C1_witness :
    (runOBS ((runOBS (initOBSWebSocket "" "Mic/Aux")
        [OBSEvent.wsOpen, OBSEvent.wsError]).1)
      [OBSEvent.pollTick, OBSEvent.wsMessage InMsg.hello,
       OBSEvent.timeout3000]).1.sent
      = ((runOBS (initOBSWebSocket "" "Mic/Aux")
          [OBSEvent.wsOpen, OBSEvent.wsError]).1).sent
    ∧ (runOBS ((runOBS (initOBSWebSocket "" "Mic/Aux")
        [OBSEvent.wsOpen, OBSEvent.wsError]).1)
      [OBSEvent.pollTick, OBSEvent.wsMessage InMsg.hello,
       OBSEvent.timeout3000]).2 = [] :=
  ⟨(C1_no_remote_after_fallback _ _
      ⟨"", "Mic/Aux", [OBSEvent.wsOpen, OBSEvent.wsError], rfl⟩ (by decide)).1,
   (C1_no_remote_after_fallback _
      [OBSEvent.pollTick, OBSEvent.wsMessage InMsg.hello, OBSEvent.timeout3000]
      ⟨"", "Mic/Aux", [OBSEvent.wsOpen, OBSEvent.wsError], rfl⟩ (by decide)).2.1⟩

/-- C2 counterexample: a session whose connection opens (password
configured, identify sent) but never receives "identified" triggers zero
fallbacks — the deadline callback checks `obsConnected`, which is set on
`onopen`, not on "identified" — and the connection is not closed. This
refutes "fallback triggered exactly once, never zero times". -/
theorem C2_counterexample :
    (runOBS (initOBSWebSocket "hunter2" "Mic/Aux")
        [OBSEvent.wsOpen, OBSEvent.timeout3000]).1.initAudioCalls = 0
    ∧ (runOBS (initOBSWebSocket "hunter2" "Mic/Aux")
        [OBSEvent.wsOpen, OBSEvent.timeout3000]).1.readyState
      = ReadyState.OPEN := by
  constructor <;> decide

/-- C2 (amended). The 3-second deadline is measured against connection
open, not against receipt of "identified": when the deadline callback
fires with the connection still unopened (`obsConnected == false`), it
invokes the local fallback exactly once and calls `close()` on the
socket — which moves a never-opened (`CONNECTING`) socket to `CLOSING`
and is a no-op on a socket already closed by an earlier error; when the
connection has opened, the callback changes nothing (beyond the clock) —
even if no "identified" ever arrived. A transport error invokes the
fallback exactly once at the error handler. -/
theorem C2_deadline_checks_open (st : OBSState) :
    (st.obsConnected = false →
      (obsStep st OBSEvent.timeout3000).1.initAudioCalls = st.initAudioCalls + 1
      ∧ (st.wsExists = true →
        (obsStep st OBSEvent.timeout3000).1.readyState = closeMethod st.readyState
        ∧ (st.readyState = ReadyState.CONNECTING →
          (obsStep st OBSEvent.timeout3000).1.readyState = ReadyState.CLOSING)))
    ∧ (st.obsConnected = true →
      (obsStep st OBSEvent.timeout3000).1 = { st with now := st.now + 1 })
    ∧ (obsStep st OBSEvent.wsError).1.initAudioCalls = st.initAudioCalls + 1 := by
  refine ⟨?_, ?_, rfl⟩
  · intro hc
    by_cases hw : st.wsExists = true
    · rw [show (obsStep st OBSEvent.timeout3000).1
          = timeoutHandler { st with now := st.now + 1 } from rfl,
        timeoutHandler_of_not_connected { st with now := st.now + 1 } hc hw]
      refine ⟨rfl, fun _ => ⟨rfl, fun hconn => ?_⟩⟩
      show closeMethod st.readyState = ReadyState.CLOSING
      rw [hconn]
      rfl
    · refine ⟨?_, fun h => absurd h hw⟩
      show (timeoutHandler { st with now := st.now + 1 }).initAudioCalls
        = st.initAudioCalls + 1
      unfold timeoutHandler
      rw [if_neg (by simp [hc])]
      dsimp only
      rw [if_neg (by simpa using hw)]
  · intro hc
    exact timeoutHandler_of_connected { st with now := st.now + 1 } hc

/-- C2 witness: on the freshly initialised session (never connected,
still `CONNECTING`), the deadline callback triggers the fallback exactly
once and `close()` puts the socket into `CLOSING`. -/
theorem C2_witness :
    (obsStep (initOBSWebSocket "pw" "Mic/Aux") OBSEvent.timeout3000).1.initAudioCalls
      = (initOBSWebSocket "pw" "Mic/Aux").initAudioCalls + 1
    ∧ (obsStep (initOBSWebSocket "pw" "Mic/Aux") OBSEvent.timeout3000).1.readyState
      = ReadyState.CLOSING :=
  ⟨((C2_deadline_checks_open (initOBSWebSocket "pw" "Mic/Aux")).1 rfl).1,
   (((C2_deadline_checks_open (initOBSWebSocket "pw" "Mic/Aux")).1 rfl).2 rfl).2 rfl⟩

/-- C3 counterexample: with the non-empty shared secret "secret"
configured, the identify sent in response to a received hello carries no
authentication token at all (`authentication = none`), refuting the claim
that the hello response carries a token whenever a secret is
configured. -/
theorem C3_counterexample :
    ((runOBS (initOBSWebSocket "secret" "Mic/Aux") [OBSEvent.wsOpen]).1).obsPassword
      = "secret"
    ∧ (handleOBSMessage
        ((runOBS (initOBSWebSocket "secret" "Mic/Aux") [OBSEvent.wsOpen]).1)
        InMsg.hello).1.sent
      = ((runOBS (initOBSWebSocket "secret" "Mic/Aux") [OBSEvent.wsOpen]).1).sent
        ++ [OutMsg.identify ⟨1, none⟩] := by
  constructor <;> decide

/-- C3 (amended). For every received hello (op=0) on an open socket, the
client responds with an identify (op=1) carrying protocol version 1 and
never an authentication token, regardless of any configured secret; the
authentication token (the configured secret, passed verbatim) is instead
sent in a separate identify immediately upon connection open whenever the
secret is non-empty. -/
theorem C3_hello_reply (st : OBSState) :
    (st.wsExists = true → st.readyState = ReadyState.OPEN →
      (handleOBSMessage st InMsg.hello).1.sent
        = st.sent ++ [OutMsg.identify ⟨1, none⟩])
    ∧ (st.readyState = ReadyState.CONNECTING → st.wsExists = true →
      st.obsPassword ≠ "" →
      (obsStep st OBSEvent.wsOpen).1.sent
        = st.sent ++ [OutMsg.identify ⟨1, some st.obsPassword⟩]) := by
  constructor
  · intro hw ho
    show (obsSend st (OutMsg.identify ⟨1, none⟩)).sent
      = st.sent ++ [OutMsg.identify ⟨1, none⟩]
    unfold obsSend
    rw [if_pos ⟨hw, ho⟩]
  · intro hconn hw hpw
    simp only [obsStep]
    rw [if_pos hconn]
    unfold onOpenHandler
    dsimp only
    rw [if_pos (show ¬ st.obsPassword = "" from hpw)]
    unfold obsAuthenticate obsSend
    rw [if_pos ⟨hw, rfl⟩]

/-- C3 witness: on the freshly initialised session with secret "secret",
the `onopen` handler transmits the identify carrying the secret verbatim. -/
theorem C3_witness :
    (obsStep (initOBSWebSocket "secret" "Mic/Aux") OBSEvent.wsOpen).1.sent
      = (initOBSWebSocket "secret" "Mic/Aux").sent
        ++ [OutMsg.identify ⟨1, some "secret"⟩] :=
  (C3_hello_reply (initOBSWebSocket "secret" "Mic/Aux")).2 rfl rfl (by decide)

/-- C4. For every response (op=7) whose `requestType` is `GetInputVolume`
and whose payload defines a non-negative linear multiplier
`inputVolumeMul`, the emitted VolumeSample is
`clamp(inputVolumeMul*100, 0, 100)`; in particular a multiplier of 0.5
yields the sample 50, and any multiplier above 1 is capped at 100. -/
theorem C4_volume_rescale :
    (∀ (st : OBSState) (mul : ℚ), 0 ≤ mul →
      (handleOBSMessage st
        (InMsg.response (some ⟨"GetInputVolume", some ⟨some mul⟩⟩))).2
        = some (min 100 (max 0 (mul * 100))))
    ∧ handleOBSVolumeResponse (some ⟨some (1/2)⟩) = some 50
    ∧ (∀ mul : ℚ, 1 < mul →
      handleOBSVolumeResponse (some ⟨some mul⟩) = some 100) := by
  refine ⟨fun st mul _ => rfl, ?_, ?_⟩
  · show some (min 100 (max 0 ((1/2 : ℚ) * 100))) = some 50
    norm_num
  · intro mul h
    show some (min 100 (max 0 (mul * 100))) = some 100
    rw [max_eq_right (by linarith), min_eq_left (by linarith)]

/-- C4 witness: multiplier 1/2 yields sample 50 through the full op=7
dispatch, and multiplier 2 is capped at 100. -/
theorem C4_witness :
    (handleOBSMessage (initOBSWebSocket "" "Mic/Aux")
        (InMsg.response (some ⟨"GetInputVolume", some ⟨some (1/2)⟩⟩))).2
      = some (min 100 (max 0 ((1/2 : ℚ) * 100)))
    ∧ handleOBSVolumeResponse (some ⟨some (2 : ℚ)⟩) = some 100 :=
  ⟨C4_volume_rescale.1 (initOBSWebSocket "" "Mic/Aux") (1/2) (by norm_num),
   C4_volume_rescale.2.2 2 (by norm_num)⟩

/-- C9. `obsSend` transmits a message exactly when the WebSocket object
exists and its `readyState` is `OPEN`; in every other connection state the
message is silently dropped and the session state is left completely
unchanged (the function is total, so no exception is possible), making it
safe to compose protocol messages after the connection has closed. -/
theorem C9_obsSend_guard :
    (∀ (st : OBSState) (m : OutMsg),
      ¬ (st.wsExists = true ∧ st.readyState = ReadyState.OPEN) →
        obsSend st m = st)
    ∧ (∀ (st : OBSState) (m : OutMsg),
      st.wsExists = true → st.readyState = ReadyState.OPEN →
        obsSend st m = { st with sent := st.sent ++ [m] }) := by
  constructor
  · intro st m h
    unfold obsSend
    rw [if_neg h]
  · intro st m h1 h2
    unfold obsSend
    rw [if_pos ⟨h1, h2⟩]

/-- C9 witness: on the freshly initialised session (still `CONNECTING`),
sending an identify changes nothing. -/
theorem C9_witness :
    obsSend (initOBSWebSocket "" "Mic/Aux") (OutMsg.identify ⟨1, none⟩)
      = initOBSWebSocket "" "Mic/Aux" :=
  C9_obsSend_guard.1 (initOBSWebSocket "" "Mic/Aux") (OutMsg.identify ⟨1, none⟩)
    (by decide)
